import Mathlib

/-!
# Verification of the bakery backend's order and product routers

Shallow embedding of `src/app/routers/orders.py` and
`src/app/routers/products.py`.  The graph store (Neo4j) is modelled as an
explicit state (`Store`) holding the `User`, `Product` and `Order` nodes
together with the `BAKES`, `PLACED` and `FOR_PRODUCT` relationships; each
handler's Cypher queries are translated into pure functions on this state.
Timestamps (`datetime()`) are supplied as `Nat` parameters; element ids as
`String` parameters.  Each handler returns the HTTP-level result, the store
after its writes, and the number of store queries it executed, mirroring the
Python control flow including the blanket `except Exception` wrapper which
re-raises every error from the handler body as an HTTP 500 carrying the
stringified original exception.
-/

namespace Bakery

/-- A `User` graph node: identity key `email`, plus `name` and `role`
(one of `customer`, `baker`, `admin`). -/
structure User where
  email : String
  name : String
  role : String
deriving DecidableEq

/-- A `Product` graph node, addressed by its element id. -/
structure Product where
  id : String
  name : String
  description : Option String
  price : ℚ
  stock_quantity : Int
  is_available : Bool
  created_at : Nat
  updated_at : Option Nat
deriving DecidableEq

/-- An `Order` graph node, addressed by its element id. -/
structure Order where
  id : String
  quantity : Int
  status : String
  created_at : Nat
  updated_at : Option Nat
deriving DecidableEq

/-- The graph store: nodes plus the `BAKES` (baker email, product id),
`PLACED` (customer email, order id) and `FOR_PRODUCT` (order id, product id)
relationships. -/
structure Store where
  users : List User
  products : List Product
  orders : List Order
  bakes : List (String × String)
  placed : List (String × String)
  forProd : List (String × String)
deriving DecidableEq

/-- A Python exception in a handler body: either an explicitly raised
`HTTPException(status_code, detail)` or an error coming from the store
driver (e.g. a Cypher syntax error). -/
inductive Exc where
  | http (stat : Nat) (detail : String)
  | storeErr (msg : String)
deriving DecidableEq

/-- Python's `str(e)`.  For `fastapi.HTTPException` (Starlette) this renders
as `"<status_code>: <detail>"`; for driver errors it is the error message. -/
def strOfExc : Exc → String
  | .http st d => toString st ++ ": " ++ d
  | .storeErr m => m

deriving instance DecidableEq for Except

/-- Result of one handler call: HTTP-level outcome, the store after the
handler's writes, and how many `db.run` store queries were executed. -/
abbrev HResult (α : Type) : Type := Except Exc α × Store × Nat

/-- The `except Exception as e: raise HTTPException(status_code=500,
detail=str(e))` wrapper that every handler body is enclosed in: any
exception raised in the body (including the handler's own `HTTPException`s)
is replaced by a 500 carrying the stringified original. -/
def wrap {α : Type} : Except Exc α → Except Exc α
  | .ok a => .ok a
  | .error e => .error (.http 500 (strOfExc e))

/-- Apply `wrap` to the outcome component of a handler body's result. -/
def wrapH {α : Type} : HResult α → HResult α
  | (r, s, q) => (wrap r, s, q)

/-- The `OrderResponse` schema: `product_name`, `customer_name` and
`baker_name` are optional and only filled by the listing endpoints.
`created_at` stands for the stringified order timestamp. -/
structure OrderResponse where
  id : String
  status : String
  quantity : Int
  created_at : Nat
  product_name : Option String
  customer_name : Option String
  baker_name : Option String
deriving DecidableEq

/-- The `ProductResponse` schema built by the product endpoints. -/
structure ProductResponse where
  id : String
  name : String
  description : Option String
  price : ℚ
  stock_quantity : Int
  is_available : Bool
  created_at : Nat
deriving DecidableEq

/-- Shape a `Product` node into a `ProductResponse`, as each product handler
does field by field. -/
def toProductResponse (p : Product) : ProductResponse :=
  { id := p.id, name := p.name, description := p.description, price := p.price,
    stock_quantity := p.stock_quantity, is_available := p.is_available,
    created_at := p.created_at }

/-! ## Order service (`src/app/routers/orders.py`) -/

/-- Body of `create_order` (inside the `try`): role gate, then one store
query `MATCH (c:User {email: $email}), (p:Product) WHERE elementId(p) =
$product_id AND p.is_available = true CREATE (o:Order ...) CREATE
(c)-[:PLACED]->(o) CREATE (o)-[:FOR_PRODUCT]->(p) RETURN o, p`; an empty
match means no record, so `result.single()` is falsy and the body raises a
400.  `newId` is the element id the store assigns to the created order. -/
def createOrderBody (u : User) (pid : String) (qty : Int) (newId : String)
    (now : Nat) (s : Store) : HResult OrderResponse :=
  if u.role = "customer" then
    match s.users.find? (fun c => decide (c.email = u.email)),
          s.products.find? (fun p => decide (p.id = pid ∧ p.is_available = true)) with
    | some c, some _ =>
        let o : Order := { id := newId, quantity := qty, status := "pending",
                           created_at := now, updated_at := none }
        ( .ok { id := newId, status := "pending", quantity := qty, created_at := now,
                product_name := none, customer_name := none, baker_name := none },
          { s with orders := s.orders ++ [o],
                   placed := s.placed ++ [(c.email, newId)],
                   forProd := s.forProd ++ [(newId, pid)] }, 1)
    | _, _ => (.error (.http 400 "Failed to create order"), s, 1)
  else (.error (.http 403 "Only customers can create orders"), s, 0)

/-- `create_order`: the body wrapped by the blanket exception handler. -/
def createOrder (u : User) (pid : String) (qty : Int) (newId : String)
    (now : Nat) (s : Store) : HResult OrderResponse :=
  wrapH (createOrderBody u pid qty newId now s)

/-- The rows matched by `MATCH (b:User {email: $email})-[:BAKES]->(p:Product)
<-[:FOR_PRODUCT]-(o:Order)`: one `(order, product)` pair per order whose
product carries a `BAKES` edge from the caller's email. -/
def bakerOrderRows (email : String) (s : Store) : List (Order × Product) :=
  s.orders.flatMap (fun o =>
    (s.products.filter (fun p =>
      decide ((email, p.id) ∈ s.bakes ∧ (o.id, p.id) ∈ s.forProd))).map (fun p => (o, p)))

/-- `ORDER BY o.created_at DESC` over the matched rows. -/
def sortRowsDesc (rows : List (Order × Product)) : List (Order × Product) :=
  List.insertionSort (fun a b => b.1.created_at ≤ a.1.created_at) rows

/-- `OPTIONAL MATCH (c:User)-[:PLACED]->(o)`: the placing customer of an
order, if any (the spec's invariant gives at most one). -/
def placedCustomer (s : Store) (oid : String) : Option User :=
  s.users.find? (fun c => decide ((c.email, oid) ∈ s.placed))

/-- Shape one matched row of `get_baker_orders` into an `OrderResponse`:
`customer_name` is the placing customer's name or null when the optional
match found none. -/
def bakerOrderResponse (s : Store) (row : Order × Product) : OrderResponse :=
  { id := row.1.id, status := row.1.status, quantity := row.1.quantity,
    created_at := row.1.created_at, product_name := some row.2.name,
    customer_name := (placedCustomer s row.1.id).map (fun c => c.name),
    baker_name := none }

/-- Body of `get_baker_orders`: role gate, then one read query returning the
caller's rows ordered by `created_at` descending, shaped row by row. -/
def bakerOrdersBody (u : User) (s : Store) : HResult (List OrderResponse) :=
  if u.role = "baker" then
    ( .ok ((sortRowsDesc (bakerOrderRows u.email s)).map (bakerOrderResponse s)), s, 1)
  else (.error (.http 403 "Access denied: Not a baker"), s, 0)

/-- `get_baker_orders`: the body wrapped by the blanket exception handler. -/
def bakerOrders (u : User) (s : Store) : HResult (List OrderResponse) :=
  wrapH (bakerOrdersBody u s)

/-- Body of `update_order_status`: role gate (baker or admin), then one
write query `MATCH (o:Order) WHERE elementId(o) = $order_id SET o.status =
$status, o.updated_at = datetime()`; no existence check and no validation of
the status value, so the message is returned even when nothing matched. -/
def updateOrderStatusBody (u : User) (oid newStat : String) (now : Nat)
    (s : Store) : HResult String :=
  if u.role = "baker" ∨ u.role = "admin" then
    ( .ok "Order status updated successfully",
      { s with orders := s.orders.map (fun o =>
          if o.id = oid then { o with status := newStat, updated_at := some now } else o) },
      1)
  else (.error (.http 403 "Not authorized"), s, 0)

/-- `update_order_status`: the body wrapped by the blanket exception
handler. -/
def updateOrderStatus (u : User) (oid newStat : String) (now : Nat)
    (s : Store) : HResult String :=
  wrapH (updateOrderStatusBody u oid newStat now s)

/-! ## Product service (`src/app/routers/products.py`) -/

/-- `pat` occurs starting at the head of `l`. -/
def listStarts : List Char → List Char → Bool
  | [], _ => true
  | _ :: _, [] => false
  | a :: as, b :: bs => a == b && listStarts as bs

/-- `pat` occurs somewhere inside `l`. -/
def listOccurs (pat : List Char) : List Char → Bool
  | [] => listStarts pat []
  | b :: bs => listStarts pat (b :: bs) || listOccurs pat bs

/-- Cypher's `hay CONTAINS pat` on non-null strings. -/
def strContains (hay pat : String) : Bool :=
  listOccurs pat.data hay.data

/-- One condition string appended to the `query` list in `get_products`. -/
inductive Cond where
  | avail
  | searchC (pat : String)
  | minP (m : ℚ)
  | maxP (m : ℚ)
deriving DecidableEq

/-- Evaluate one condition on a product row.  For the search condition,
`p.description CONTAINS $search` is null (hence not true) when the
description is null, matching Cypher's three-valued `OR`. -/
def evalCond : Cond → Product → Bool
  | .avail, p => p.is_available
  | .searchC pat, p =>
      strContains p.name pat ||
        (match p.description with | some d => strContains d pat | none => false)
  | .minP m, p => decide (m ≤ p.price)
  | .maxP m, p => decide (p.price ≤ m)

/-- The `query` list built by `get_products`: its first element is the
string `"MATCH (p:Product) WHERE p.is_available = true"` (modelled by
`Cond.avail`), and one bare condition is appended per supplied filter
(`if search:` is Python truthiness, so an empty search string adds
nothing). -/
def productQueryConds (searchQ : Option String) (minPrice maxPrice : Option ℚ) :
    List Cond :=
  [Cond.avail]
    ++ (match searchQ with
        | some t => if t = "" then [] else [Cond.searchC t]
        | none => [])
    ++ (match minPrice with | some m => [Cond.minP m] | none => [])
    ++ (match maxPrice with | some m => [Cond.maxP m] | none => [])

/-- Body of `get_products` (public listing).  The final query string is
`"MATCH (p:Product) WHERE " + " AND ".join(query[1:]) + " RETURN p ORDER BY
p.created_at DESC"`: the join starts at `query[1:]`, so only the conditions
after the first list element reach the `WHERE` clause.  When `query[1:]` is
empty the `WHERE` clause is empty and the store rejects the malformed
Cypher. -/
def getProductsBody (searchQ : Option String) (minPrice maxPrice : Option ℚ)
    (s : Store) : HResult (List ProductResponse) :=
  let eff := (productQueryConds searchQ minPrice maxPrice).drop 1
  match eff with
  | [] => (.error (.storeErr "Invalid Cypher: empty WHERE clause"), s, 1)
  | _ :: _ =>
      ( .ok ((List.insertionSort (fun a b => b.created_at ≤ a.created_at)
              (s.products.filter (fun p => eff.all (fun c => evalCond c p)))).map
                toProductResponse),
        s, 1)

/-- `get_products` (`GET /api/products/`, i.e. the spec's `list_products`):
the body wrapped by the blanket exception handler. -/
def getProducts (searchQ : Option String) (minPrice maxPrice : Option ℚ)
    (s : Store) : HResult (List ProductResponse) :=
  wrapH (getProductsBody searchQ minPrice maxPrice s)

/-- Modelled from the spec: the `ProductCreate` schema lives in
`src/app/models/schemas.py`, which is not under `src/`.  Per the spec,
`create_product(name, description?, price, stock_quantity)`. -/
structure ProductCreate where
  name : String
  description : Option String
  price : ℚ
  stock_quantity : Int
deriving DecidableEq

/-- Body of `create_product`: role gate (baker), then one query matching the
caller's node and creating the product with `is_available: true` and a
`BAKES` edge; an empty match (no such user node) yields no record and the
body raises a 500. -/
def createProductBody (u : User) (d : ProductCreate) (newId : String)
    (now : Nat) (s : Store) : HResult ProductResponse :=
  if u.role = "baker" then
    if s.users.any (fun b => decide (b.email = u.email)) then
      let p : Product := { id := newId, name := d.name, description := d.description,
                           price := d.price, stock_quantity := d.stock_quantity,
                           is_available := true, created_at := now, updated_at := none }
      ( .ok (toProductResponse p),
        { s with products := s.products ++ [p],
                 bakes := s.bakes ++ [(u.email, newId)] }, 1)
    else (.error (.http 500 "Failed to create product"), s, 1)
  else (.error (.http 403 "Only bakers can create products"), s, 0)

/-- `create_product`: the body wrapped by the blanket exception handler. -/
def createProduct (u : User) (d : ProductCreate) (newId : String)
    (now : Nat) (s : Store) : HResult ProductResponse :=
  wrapH (createProductBody u d newId now s)

/-- Modelled from the spec: the `ProductUpdate` schema lives in
`src/app/models/schemas.py`, which is not under `src/`.  Per the spec,
`update_product(product_id, partial_fields)` takes a partial field set over
the product attributes; a field that is absent and a field sent as null are
indistinguishable after `product_data.dict()`, so both are `none`. -/
structure ProductUpdate where
  name : Option String := none
  description : Option String := none
  price : Option ℚ := none
  stock_quantity : Option Int := none
  is_available : Option Bool := none
deriving DecidableEq

/-- The keys of `updates = {k: v for k, v in product_data.dict().items() if
v is not None}`, in field declaration order. -/
def updKeys (u : ProductUpdate) : List String :=
  (match u.name with | some _ => ["name"] | none => [])
    ++ (match u.description with | some _ => ["description"] | none => [])
    ++ (match u.price with | some _ => ["price"] | none => [])
    ++ (match u.stock_quantity with | some _ => ["stock_quantity"] | none => [])
    ++ (match u.is_available with | some _ => ["is_available"] | none => [])

/-- `set_clause = ", ".join([f"p.\x7bk\x7d = $\x7bk\x7d" for k in updates.keys()])`. -/
def setClause (u : ProductUpdate) : String :=
  String.intercalate ", " ((updKeys u).map (fun k => "p." ++ k ++ " = $" ++ k))

/-- The full `SET` fragment spliced into the update query.  When no field
was supplied it reads `SET , p.updated_at = datetime()`, which is not valid
Cypher. -/
def setFragment (u : ProductUpdate) : String :=
  "SET " ++ setClause u ++ ", p.updated_at = datetime()"

/-- Apply the supplied (non-null) fields of a partial update to one product
node, and set `updated_at`; every omitted field keeps its value. -/
def applyUpdate (u : ProductUpdate) (now : Nat) (p : Product) : Product :=
  { p with
    name := u.name.getD p.name,
    description := match u.description with | some d => some d | none => p.description,
    price := u.price.getD p.price,
    stock_quantity := u.stock_quantity.getD p.stock_quantity,
    is_available := u.is_available.getD p.is_available,
    updated_at := some now }

/-- Body of `update_product`: (1) ownership check `MATCH (b:User {email:
$email})-[:BAKES]->(p:Product) WHERE elementId(p) = $product_id RETURN p`,
raising a 404 when it matches nothing; (2) the dynamic `SET` write on every
product with the given element id (the write query no longer checks
ownership) — rejected by the store when the `SET` clause is empty; (3) a
re-read of the product by id, shaped into the response (`record["p"]` on a
missing record would itself raise). -/
def updateProductBody (u : User) (pid : String) (upd : ProductUpdate)
    (now : Nat) (s : Store) : HResult ProductResponse :=
  match s.products.find? (fun p => decide ((u.email, p.id) ∈ s.bakes ∧ p.id = pid)) with
  | none => (.error (.http 404 "Product not found or not owned by baker"), s, 1)
  | some _ =>
      match updKeys upd with
      | [] => (.error (.storeErr ("Invalid Cypher: " ++ setFragment upd)), s, 2)
      | _ :: _ =>
          let s' := { s with products := s.products.map (fun p =>
            if p.id = pid then applyUpdate upd now p else p) }
          match s'.products.find? (fun p => decide (p.id = pid)) with
          | some p2 => (.ok (toProductResponse p2), s', 3)
          | none => (.error (.storeErr "record is not subscriptable"), s', 3)

/-- `update_product`: the body wrapped by the blanket exception handler. -/
def updateProduct (u : User) (pid : String) (upd : ProductUpdate)
    (now : Nat) (s : Store) : HResult ProductResponse :=
  wrapH (updateProductBody u pid upd now s)

/-- Body of `delete_product` (soft delete): one write query `MATCH (b:User
{email: $email})-[:BAKES]->(p:Product) WHERE elementId(p) = $product_id SET
p.is_available = false, p.updated_at = datetime()`; no existence or
ownership failure is reported, the message is returned unconditionally. -/
def deleteProductBody (u : User) (pid : String) (now : Nat) (s : Store) :
    HResult String :=
  ( .ok "Product marked as unavailable",
    { s with products := s.products.map (fun p =>
        if decide ((u.email, p.id) ∈ s.bakes ∧ p.id = pid) then
          { p with is_available := false, updated_at := some now }
        else p) },
    1)

/-- `delete_product`: the body wrapped by the blanket exception handler. -/
def deleteProduct (u : User) (pid : String) (now : Nat) (s : Store) :
    HResult String :=
  wrapH (deleteProductBody u pid now s)

/-! ## Concrete fixtures used to evaluate the handlers -/

/-- A baker who owns both example products. -/
def exBaker : User := { email := "b1", name := "Bea", role := "baker" }

/-- A second baker who owns nothing. -/
def exBaker2 : User := { email := "b2", name := "Bob", role := "baker" }

/-- An admin. -/
def exAdmin : User := { email := "a1", name := "Ada", role := "admin" }

/-- A customer. -/
def exCustomer : User := { email := "c1", name := "Cara", role := "customer" }

/-- A soft-deleted (unavailable) product of `exBaker`. -/
def exProdUnavail : Product :=
  { id := "p1", name := "Stale Loaf", description := none, price := 10,
    stock_quantity := 5, is_available := false, created_at := 3, updated_at := none }

/-- An available product of `exBaker`. -/
def exProdAvail : Product :=
  { id := "p2", name := "Fresh Loaf", description := some "sourdough", price := 12,
    stock_quantity := 4, is_available := true, created_at := 5, updated_at := none }

/-- An order for `exProdUnavail`, placed by `exCustomer`. -/
def exOrder1 : Order :=
  { id := "o1", quantity := 2, status := "pending", created_at := 4, updated_at := none }

/-- An order for `exProdAvail`, with no `PLACED` customer link. -/
def exOrder2 : Order :=
  { id := "o2", quantity := 1, status := "pending", created_at := 7, updated_at := none }

/-- The example store. -/
def exStore : Store :=
  { users := [exBaker, exBaker2, exAdmin, exCustomer],
    products := [exProdUnavail, exProdAvail],
    orders := [exOrder1, exOrder2],
    bakes := [("b1", "p1"), ("b1", "p2")],
    placed := [("c1", "o1")],
    forProd := [("o1", "p1"), ("o2", "p2")] }

/-! ## Helper lemmas -/

/-- Every error coming out of the blanket wrapper is a 500 carrying the
stringified exception the body raised. -/
theorem wrapH_error {α : Type} (r : HResult α) (e : Exc)
    (h : (wrapH r).1 = .error e) :
    ∃ e₀, r.1 = .error e₀ ∧ e = .http 500 (strOfExc e₀) := by
  obtain ⟨x, st, q⟩ := r
  cases x with
  | ok a => simp [wrapH, wrap] at h
  | error e₀ =>
      refine ⟨e₀, rfl, ?_⟩
      simpa [wrapH, wrap] using h.symm

/-- With distinct product ids, `find?` by id returns the (unique) product
carrying that id. -/
theorem find?_by_id (l : List Product) (pid : String) (p₀ : Product)
    (hnodup : (l.map Product.id).Nodup) (hmem : p₀ ∈ l) (hid : p₀.id = pid) :
    l.find? (fun p => decide (p.id = pid)) = some p₀ := by
  induction l with
  | nil => cases hmem
  | cons a t ih =>
      rcases List.mem_cons.mp hmem with rfl | hmem'
      · exact List.find?_cons_of_pos _ (by simp [hid])
      · have hnd := List.nodup_cons.mp hnodup
        have ha : ¬ a.id = pid := by
          intro h
          exact hnd.1 (by
            rw [h, ← hid]
            exact List.mem_map_of_mem Product.id hmem')
        rw [List.find?_cons_of_neg _ (by simpa using ha)]
        exact ih hnd.2 hmem'

/-! ## Claim theorems -/

/-- C1: the claim "list_products never returns a product with
is_available = false" fails on the code.  The query string is assembled as
`"MATCH (p:Product) WHERE " + " AND ".join(query[1:])`, which drops the
first list element — the very condition `p.is_available = true` — so with a
`min_price` filter the unavailable product `exProdUnavail` is returned. -/
theorem list_products_returns_unavailable_product :
    (getProducts none (some 5) none exStore).1
      = .ok [toProductResponse exProdAvail, toProductResponse exProdUnavail] ∧
    exProdUnavail ∈ exStore.products ∧
    exProdUnavail.is_available = false ∧
    (toProductResponse exProdUnavail).is_available = false := by decide

/-- C2: the claim "for every non-customer caller create_order fails with
403" fails on the status code: the handler does raise a 403 before any
store query, but its own blanket `except Exception` catches it and
re-raises it as a 500 carrying the stringified 403.  The store is indeed
never touched (store unchanged, zero queries). -/
theorem create_order_role_denial_surfaces_500 :
    createOrder exBaker2 "p2" 1 "o9" 9 exStore
      = (.error (.http 500 "403: Only customers can create orders"), exStore, 0) ∧
    exBaker2.role ≠ "customer" := by decide

/-- C3: the claim "create_order against an unavailable product fails with
400" fails on the status code: the creation query matches nothing, the
handler raises a 400, and the blanket `except Exception` re-raises it as a
500 carrying the stringified 400. -/
theorem create_order_unavailable_product_surfaces_500 :
    createOrder exCustomer "p1" 1 "o9" 9 exStore
      = (.error (.http 500 "400: Failed to create order"), exStore, 1) ∧
    exCustomer.role = "customer" ∧
    exProdUnavail ∈ exStore.products ∧
    exProdUnavail.id = "p1" ∧
    exProdUnavail.is_available = false := by decide

/-- C5: the claim "update_product by a non-owner fails with 404 and performs
no update" fails on the status code: the ownership check does fail and no
update is performed (store unchanged), but the handler's own 404 is caught
by the blanket `except Exception` and re-raised as a 500. -/
theorem update_product_not_owner_surfaces_500 :
    updateProduct exBaker2 "p1" { price := some 9 } 9 exStore
      = (.error (.http 500 "404: Product not found or not owned by baker"), exStore, 1) ∧
    (exBaker2.email, "p1") ∉ exStore.bakes := by decide

/-- C8: for every baker or admin caller, any order id and any status string,
`update_order_status` sets `status` and `updated_at` on every order matching
the id and returns the success message; when no order matches the id the
store is left unchanged and the message is still returned; no validation of
the status value takes place (the statement holds for arbitrary
`newStat`). -/
theorem update_order_status_unchecked (u : User) (oid newStat : String)
    (now : Nat) (s : Store) (hrole : u.role = "baker" ∨ u.role = "admin") :
    (updateOrderStatus u oid newStat now s).1 = .ok "Order status updated successfully" ∧
    (updateOrderStatus u oid newStat now s).2.1.orders
      = s.orders.map (fun o =>
          if o.id = oid then { o with status := newStat, updated_at := some now } else o) ∧
    ((∀ o ∈ s.orders, o.id ≠ oid) → (updateOrderStatus u oid newStat now s).2.1 = s) := by
  simp only [updateOrderStatus, updateOrderStatusBody, if_pos hrole, wrapH, wrap]
  refine ⟨trivial, trivial, fun hno => ?_⟩
  have hmap : s.orders.map (fun o =>
      if o.id = oid then { o with status := newStat, updated_at := some now } else o)
      = s.orders := by
    rw [List.map_congr_left (fun o ho => if_neg (hno o ho))]
    exact List.map_id s.orders
  show { s with orders := _ } = s
  rw [hmap]

/-- C8 witness: an admin updates a nonexistent order id to an unrecognized
status value; the call still reports success and the store is unchanged. -/
theorem update_order_status_unchecked_witness :
    (updateOrderStatus exAdmin "o999" "definitely-not-a-real-status" 9 exStore).1
      = .ok "Order status updated successfully" ∧
    (updateOrderStatus exAdmin "o999" "definitely-not-a-real-status" 9 exStore).2.1 = exStore := by
  obtain ⟨h1, -, h3⟩ := update_order_status_unchecked exAdmin "o999"
    "definitely-not-a-real-status" 9 exStore (Or.inr rfl)
  exact ⟨h1, h3 (by decide)⟩

/-- C9: every error raised inside a handler body after authentication —
including the handlers' own 403 role denials, 400 bad-request and 404
not-found responses — is caught by the handler's blanket exception wrapper
and surfaced as an HTTP 500 whose detail is the stringified original
exception.  Stated for all four wrapped handlers named by the claim. -/
theorem handler_errors_surface_as_500 (u : User) (pid newId oid newStat : String)
    (qty : Int) (upd : ProductUpdate) (pc : ProductCreate) (now : Nat) (s : Store) :
    (∀ e, (createOrder u pid qty newId now s).1 = .error e →
      ∃ e₀, (createOrderBody u pid qty newId now s).1 = .error e₀ ∧
        e = .http 500 (strOfExc e₀)) ∧
    (∀ e, (updateProduct u pid upd now s).1 = .error e →
      ∃ e₀, (updateProductBody u pid upd now s).1 = .error e₀ ∧
        e = .http 500 (strOfExc e₀)) ∧
    (∀ e, (updateOrderStatus u oid newStat now s).1 = .error e →
      ∃ e₀, (updateOrderStatusBody u oid newStat now s).1 = .error e₀ ∧
        e = .http 500 (strOfExc e₀)) ∧
    (∀ e, (createProduct u pc newId now s).1 = .error e →
      ∃ e₀, (createProductBody u pc newId now s).1 = .error e₀ ∧
        e = .http 500 (strOfExc e₀)) :=
  ⟨fun e h => wrapH_error _ e h, fun e h => wrapH_error _ e h,
   fun e h => wrapH_error _ e h, fun e h => wrapH_error _ e h⟩

/-- C9 witness: the 403 role denial raised inside `create_order` for an
admin caller surfaces to the client as a 500 with the stringified 403. -/
theorem handler_errors_surface_as_500_witness :
    ∃ e₀, (createOrderBody exAdmin "p2" 1 "o9" 9 exStore).1 = .error e₀ ∧
      Exc.http 500 "403: Only customers can create orders" = .http 500 (strOfExc e₀) :=
  (handler_errors_surface_as_500 exAdmin "p2" "o9" "o1" "x" 1 {}
      { name := "n", description := none, price := 1, stock_quantity := 1 } 9 exStore).1
    (Exc.http 500 "403: Only customers can create orders") (by decide)

/-- C10: an `update_product` call by the owning baker in which every
optional field is absent or null does not succeed as a no-op: the generated
`SET` clause is empty (the spliced fragment reads
`SET , p.updated_at = datetime()`), the store rejects the malformed query,
and the wrapped handler returns a 500 instead of the product record,
leaving the store unchanged. -/
theorem update_product_all_null_fails (u : User) (pid : String)
    (upd : ProductUpdate) (now : Nat) (s : Store) (p₀ : Product)
    (hmem : p₀ ∈ s.products) (hid : p₀.id = pid) (hbake : (u.email, pid) ∈ s.bakes)
    (hname : upd.name = none) (hdesc : upd.description = none)
    (hprice : upd.price = none) (hstock : upd.stock_quantity = none)
    (havail : upd.is_available = none) :
    setClause upd = "" ∧
    (updateProduct u pid upd now s).1
      = .error (.http 500 "Invalid Cypher: SET , p.updated_at = datetime()") ∧
    (updateProduct u pid upd now s).2.1 = s := by
  have hkeys : updKeys upd = [] := by
    simp [updKeys, hname, hdesc, hprice, hstock, havail]
  have hsc : setClause upd = "" := by
    simp [setClause, hkeys, String.intercalate]
  have hfind : (s.products.find?
      (fun p => decide ((u.email, p.id) ∈ s.bakes ∧ p.id = pid))).isSome := by
    rw [List.find?_isSome]
    exact ⟨p₀, hmem, by rw [hid]; simpa using hbake⟩
  obtain ⟨q, hq⟩ := Option.isSome_iff_exists.mp hfind
  have hq' : List.find? (fun p => decide ((u.email, p.id) ∈ s.bakes) && decide (p.id = pid))
      s.products = some q := by simpa using hq
  have hfrag : setFragment upd = "SET , p.updated_at = datetime()" := by
    rw [setFragment, hsc]; decide
  refine ⟨hsc, ?_, ?_⟩ <;>
    simp [updateProduct, updateProductBody, hq', hkeys, wrapH, wrap, strOfExc, hfrag]

/-- C10 witness: the owning baker sends an update with every field null;
the call fails with the 500 carrying the Cypher rejection and the store is
unchanged. -/
theorem update_product_all_null_fails_witness :
    setClause ({} : ProductUpdate) = "" ∧
    (updateProduct exBaker "p1" {} 9 exStore).1
      = .error (.http 500 "Invalid Cypher: SET , p.updated_at = datetime()") ∧
    (updateProduct exBaker "p1" {} 9 exStore).2.1 = exStore :=
  update_product_all_null_fails exBaker "p1" {} 9 exStore exProdUnavail
    (by decide) rfl (by decide) rfl rfl rfl rfl rfl

/-- C4: for an `update_product` call by the owning baker with at least one
supplied (non-null) field, the store afterwards holds exactly the products
with the matching id rewritten by `applyUpdate` (all other products
untouched), the response is the re-read updated record, and `applyUpdate`
assigns exactly the supplied non-null fields plus `updated_at`, keeping
every omitted or null field (and `id`, `created_at`) at its previous
value. -/
theorem update_product_frame (u : User) (pid : String) (upd : ProductUpdate)
    (now : Nat) (s : Store) (p₀ : Product)
    (hmem : p₀ ∈ s.products) (hid : p₀.id = pid) (hbake : (u.email, pid) ∈ s.bakes)
    (hne : updKeys upd ≠ [])
    (hnodup : (s.products.map Product.id).Nodup) :
    (updateProduct u pid upd now s).1 = .ok (toProductResponse (applyUpdate upd now p₀)) ∧
    (updateProduct u pid upd now s).2.1.products
      = s.products.map (fun q => if q.id = pid then applyUpdate upd now q else q) ∧
    (applyUpdate upd now p₀).updated_at = some now ∧
    (∀ v, upd.name = some v → (applyUpdate upd now p₀).name = v) ∧
    (upd.name = none → (applyUpdate upd now p₀).name = p₀.name) ∧
    (∀ v, upd.description = some v → (applyUpdate upd now p₀).description = some v) ∧
    (upd.description = none → (applyUpdate upd now p₀).description = p₀.description) ∧
    (∀ v, upd.price = some v → (applyUpdate upd now p₀).price = v) ∧
    (upd.price = none → (applyUpdate upd now p₀).price = p₀.price) ∧
    (∀ v, upd.stock_quantity = some v → (applyUpdate upd now p₀).stock_quantity = v) ∧
    (upd.stock_quantity = none → (applyUpdate upd now p₀).stock_quantity = p₀.stock_quantity) ∧
    (∀ v, upd.is_available = some v → (applyUpdate upd now p₀).is_available = v) ∧
    (upd.is_available = none → (applyUpdate upd now p₀).is_available = p₀.is_available) ∧
    (applyUpdate upd now p₀).id = p₀.id ∧
    (applyUpdate upd now p₀).created_at = p₀.created_at := by
  have hfind : (s.products.find?
      (fun p => decide ((u.email, p.id) ∈ s.bakes ∧ p.id = pid))).isSome := by
    rw [List.find?_isSome]
    exact ⟨p₀, hmem, by rw [hid]; simpa using hbake⟩
  obtain ⟨q, hq⟩ := Option.isSome_iff_exists.mp hfind
  have hq' : List.find? (fun p => decide ((u.email, p.id) ∈ s.bakes) && decide (p.id = pid))
      s.products = some q := by simpa using hq
  have hpred : (fun p => decide (p.id = pid)) ∘
      (fun q => if q.id = pid then applyUpdate upd now q else q)
      = fun q => decide (q.id = pid) := by
    funext a
    by_cases h : a.id = pid
    · simp [Function.comp, h, applyUpdate]
    · simp [Function.comp, h]
  have hreread : (s.products.map
      (fun q => if q.id = pid then applyUpdate upd now q else q)).find?
      (fun p => decide (p.id = pid)) = some (applyUpdate upd now p₀) := by
    rw [List.find?_map, hpred, find?_by_id s.products pid p₀ hnodup hmem hid]
    simp [hid]
  cases hk : updKeys upd with
  | nil => exact absurd hk hne
  | cons a l =>
      refine ⟨?_, ?_, rfl, ?_, ?_, ?_, ?_, ?_, ?_, ?_, ?_, ?_, ?_, rfl, rfl⟩
      · simp [updateProduct, updateProductBody, hq', hk, wrapH, wrap, hreread]
      · simp [updateProduct, updateProductBody, hq', hk, wrapH, hreread]
      · intro v hv; simp [applyUpdate, hv]
      · intro hv; simp [applyUpdate, hv]
      · intro v hv; simp [applyUpdate, hv]
      · intro hv; simp [applyUpdate, hv]
      · intro v hv; simp [applyUpdate, hv]
      · intro hv; simp [applyUpdate, hv]
      · intro v hv; simp [applyUpdate, hv]
      · intro hv; simp [applyUpdate, hv]
      · intro v hv; simp [applyUpdate, hv]
      · intro hv; simp [applyUpdate, hv]

/-- C4 witness: the owning baker updates only the price of a product; the
response is the record with only `price` (and `updated_at`) changed. -/
theorem update_product_frame_witness :
    (updateProduct exBaker "p1" { price := some 9 } 9 exStore).1
      = .ok (toProductResponse (applyUpdate { price := some 9 } 9 exProdUnavail)) ∧
    (applyUpdate ({ price := some 9 } : ProductUpdate) 9 exProdUnavail).name
      = exProdUnavail.name :=
  ⟨(update_product_frame exBaker "p1" { price := some 9 } 9 exStore exProdUnavail
      (by decide) rfl (by decide) (by decide) (by decide)).1,
   (update_product_frame exBaker "p1" { price := some 9 } 9 exStore exProdUnavail
      (by decide) rfl (by decide) (by decide) (by decide)).2.2.2.2.1 rfl⟩

/-- After `delete_product`, every product in the store carrying the given
id is unavailable, provided the caller owns a product with that id. -/
theorem delete_product_marks_unavailable (u : User) (pid : String) (now : Nat)
    (s : Store) (hbake : (u.email, pid) ∈ s.bakes) :
    ∀ q ∈ (deleteProduct u pid now s).2.1.products, q.id = pid → q.is_available = false := by
  intro q hq hqid
  simp only [deleteProduct, deleteProductBody, wrapH] at hq
  rw [List.mem_map] at hq
  obtain ⟨a, ha, rfl⟩ := hq
  by_cases hc : (u.email, a.id) ∈ s.bakes ∧ a.id = pid
  · rw [if_pos (by simpa using hc)]
  · rw [if_neg (by simpa using hc)] at hqid ⊢
    exact absurd ⟨by rw [hqid]; exact hbake, hqid⟩ hc

/-- `delete_product` keeps every product node (by id) in the store. -/
theorem delete_product_preserves_ids (u : User) (pid : String) (now : Nat)
    (s : Store) :
    ∀ p₀ ∈ s.products, ∃ q ∈ (deleteProduct u pid now s).2.1.products, q.id = p₀.id := by
  intro p₀ hmem
  refine ⟨_, List.mem_map_of_mem _ hmem, ?_⟩
  by_cases hc : (u.email, p₀.id) ∈ s.bakes ∧ p₀.id = pid
  · rw [if_pos (by simpa using hc)]
  · rw [if_neg (by simpa using hc)]

/-- C6: `delete_product` is idempotent.  For a product owned by the caller,
both the first and the second call on the same product id return the
success message (no error), after each call every product with that id has
`is_available = false`, and the product is still present after both
calls. -/
theorem delete_product_idempotent (u : User) (pid : String) (now₁ now₂ : Nat)
    (s : Store) (p₀ : Product)
    (hmem : p₀ ∈ s.products) (hid : p₀.id = pid) (hbake : (u.email, pid) ∈ s.bakes) :
    (deleteProduct u pid now₁ s).1 = .ok "Product marked as unavailable" ∧
    (∀ q ∈ (deleteProduct u pid now₁ s).2.1.products, q.id = pid → q.is_available = false) ∧
    (deleteProduct u pid now₂ (deleteProduct u pid now₁ s).2.1).1
      = .ok "Product marked as unavailable" ∧
    (∀ q ∈ (deleteProduct u pid now₂ (deleteProduct u pid now₁ s).2.1).2.1.products,
        q.id = pid → q.is_available = false) ∧
    (∃ q ∈ (deleteProduct u pid now₂ (deleteProduct u pid now₁ s).2.1).2.1.products,
        q.id = pid ∧ q.is_available = false) := by
  have hbake1 : (u.email, pid) ∈ (deleteProduct u pid now₁ s).2.1.bakes := hbake
  have havail2 := delete_product_marks_unavailable u pid now₂
    (deleteProduct u pid now₁ s).2.1 hbake1
  refine ⟨rfl, delete_product_marks_unavailable u pid now₁ s hbake, rfl, havail2, ?_⟩
  obtain ⟨q₁, hq₁, hq₁id⟩ := delete_product_preserves_ids u pid now₁ s p₀ hmem
  obtain ⟨q₂, hq₂, hq₂id⟩ := delete_product_preserves_ids u pid now₂
    (deleteProduct u pid now₁ s).2.1 q₁ hq₁
  have hq₂pid : q₂.id = pid := by rw [hq₂id, hq₁id, hid]
  exact ⟨q₂, hq₂, hq₂pid, havail2 q₂ hq₂ hq₂pid⟩

/-- C6 witness: the owning baker soft-deletes the same product twice; both
calls report success and the product ends up (and stays) unavailable. -/
theorem delete_product_idempotent_witness :
    (deleteProduct exBaker "p2" 8 exStore).1 = .ok "Product marked as unavailable" ∧
    (deleteProduct exBaker "p2" 9 (deleteProduct exBaker "p2" 8 exStore).2.1).1
      = .ok "Product marked as unavailable" ∧
    (∃ q ∈ (deleteProduct exBaker "p2" 9
        (deleteProduct exBaker "p2" 8 exStore).2.1).2.1.products,
        q.id = "p2" ∧ q.is_available = false) := by
  obtain ⟨h1, -, h3, -, h5⟩ := delete_product_idempotent exBaker "p2" 8 9 exStore
    exProdAvail (by decide) rfl (by decide)
  exact ⟨h1, h3, h5⟩

/-- A row is matched for `get_baker_orders` exactly when its order and
product are in the store, the caller bakes the product and the order is for
that product. -/
theorem mem_bakerOrderRows {email : String} {s : Store} {o : Order} {p : Product} :
    (o, p) ∈ bakerOrderRows email s ↔
      o ∈ s.orders ∧ p ∈ s.products ∧
      (email, p.id) ∈ s.bakes ∧ (o.id, p.id) ∈ s.forProd := by
  simp only [bakerOrderRows, List.mem_flatMap, List.mem_map, List.mem_filter,
    Prod.mk.injEq, decide_eq_true_eq]
  constructor
  · rintro ⟨o', ho', p', ⟨hp', hb, hf⟩, rfl, rfl⟩
    exact ⟨ho', hp', hb, hf⟩
  · rintro ⟨ho, hp, hb, hf⟩
    exact ⟨o, ho, p, ⟨hp, hb, hf⟩, rfl, rfl⟩

/-- The descending sort of the matched rows is a permutation of them. -/
theorem sortRowsDesc_perm (rows : List (Order × Product)) :
    List.Perm (sortRowsDesc rows) rows :=
  List.perm_insertionSort _ rows

/-- The matched rows come out sorted by order creation time, newest
first. -/
theorem sortRowsDesc_sorted (rows : List (Order × Product)) :
    List.Sorted (fun a b => b.1.created_at ≤ a.1.created_at) (sortRowsDesc rows) := by
  haveI : IsTotal (Order × Product) (fun a b => b.1.created_at ≤ a.1.created_at) :=
    ⟨fun a b => Nat.le_total b.1.created_at a.1.created_at⟩
  haveI : IsTrans (Order × Product) (fun a b => b.1.created_at ≤ a.1.created_at) :=
    ⟨fun a b c hab hbc => Nat.le_trans hbc hab⟩
  exact List.sorted_insertionSort _ rows

/-- C7: for every baker caller, `get_baker_orders` succeeds and returns
exactly the orders whose product carries a `BAKES` relationship from the
caller — every returned row comes from such an order, and every such order
appears — sorted by `created_at` descending, and `customer_name` is null
whenever the order has no `PLACED` customer link. -/
theorem get_baker_orders_exactly_own (u : User) (s : Store)
    (hrole : u.role = "baker") :
    ∃ rs, (bakerOrders u s).1 = .ok rs ∧
      (∀ r ∈ rs, ∃ o ∈ s.orders, ∃ p ∈ s.products,
          r.id = o.id ∧ r.created_at = o.created_at ∧ r.product_name = some p.name ∧
          (u.email, p.id) ∈ s.bakes ∧ (o.id, p.id) ∈ s.forProd ∧
          r.customer_name = (placedCustomer s o.id).map (fun c => c.name)) ∧
      (∀ o ∈ s.orders, ∀ p ∈ s.products, (u.email, p.id) ∈ s.bakes →
          (o.id, p.id) ∈ s.forProd → ∃ r ∈ rs, r.id = o.id) ∧
      List.Pairwise (fun a b => b.created_at ≤ a.created_at) rs ∧
      (∀ r ∈ rs, (∀ c ∈ s.users, (c.email, r.id) ∉ s.placed) →
          r.customer_name = none) := by
  refine ⟨(sortRowsDesc (bakerOrderRows u.email s)).map (bakerOrderResponse s),
    ?_, ?_, ?_, ?_, ?_⟩
  · simp [bakerOrders, bakerOrdersBody, hrole, wrapH, wrap]
  · intro r hr
    rw [List.mem_map] at hr
    obtain ⟨⟨o, p⟩, hrow, rfl⟩ := hr
    obtain ⟨ho, hp, hb, hf⟩ :=
      mem_bakerOrderRows.mp ((sortRowsDesc_perm _).mem_iff.mp hrow)
    exact ⟨o, ho, p, hp, rfl, rfl, rfl, hb, hf, rfl⟩
  · intro o ho p hp hb hf
    have hrow : (o, p) ∈ sortRowsDesc (bakerOrderRows u.email s) :=
      (sortRowsDesc_perm _).mem_iff.mpr (mem_bakerOrderRows.mpr ⟨ho, hp, hb, hf⟩)
    exact ⟨bakerOrderResponse s (o, p), List.mem_map_of_mem _ hrow, rfl⟩
  · rw [List.pairwise_map]
    exact sortRowsDesc_sorted (bakerOrderRows u.email s)
  · intro r hr hnone
    rw [List.mem_map] at hr
    obtain ⟨⟨o, p⟩, hrow, rfl⟩ := hr
    have hfnone : placedCustomer s o.id = none := by
      rw [placedCustomer, List.find?_eq_none]
      intro c hc
      simpa using hnone c hc
    simp [bakerOrderResponse, hfnone]

/-- C7 witness: the example baker's listing succeeds and is sorted by
creation time, newest first. -/
theorem get_baker_orders_exactly_own_witness :
    ∃ rs, (bakerOrders exBaker exStore).1 = .ok rs ∧
      List.Pairwise (fun a b => b.created_at ≤ a.created_at) rs := by
  obtain ⟨rs, h1, -, -, h4, -⟩ := get_baker_orders_exactly_own exBaker exStore rfl
  exact ⟨rs, h1, h4⟩

end Bakery
